import Mathlib

/-!
Shallow embedding of the authentication/session-refresh lifecycle of the
repository: the LDAP authentication driver (`LDAPAuthDriver`), its error
translation (`handleError`), the login router (`createLDAPAuthRouter`),
and the SDK client's auto-refresh scheduler (known here only through its
tests, so modelled from the spec).

Conventions: JavaScript string truthiness (`!s` is true for `undefined`
and for the empty string) is `jsTruthyStr`; JavaScript number truthiness
(`0` and `NaN` are falsy) is `jsTruthyNum`, with `none : Option Nat`
standing for `NaN`/`undefined`. Machine integers are modelled as `Nat`
with `Nat.land`/`Nat.lor` for the bitwise operators (account-control
values are non-negative and far below 2^31, so JS `ToInt32` coercion is
the identity on them).
-/

namespace ArquiAgua

/-- JS truthiness of a `string | undefined` value: `undefined` and `""` are falsy. -/
def jsTruthyStr : Option String → Bool
  | none => false
  | some s => s ≠ ""

/-- JS truthiness of a numeric value where `none` models `NaN`/`undefined`:
`0` and `NaN` are falsy. -/
def jsTruthyNum : Option Nat → Bool
  | none => false
  | some n => n ≠ 0

/-- The `ldapjs` error values the driver can receive, by class, each
carrying its `message`. `inappropriateAuthentication`, `invalidCredentials`
and `insufficientAccessRights` are the three bind-failure classes the
driver special-cases; `operations` is `OperationsError`; `other` is any
other `Error` (transport failures included). -/
inductive LDAPError where
  | inappropriateAuthentication (msg : String)
  | invalidCredentials (msg : String)
  | insufficientAccessRights (msg : String)
  | operations (msg : String)
  | other (msg : String)
deriving DecidableEq, Repr

/-- The `.message` property of an `ldapjs` error. -/
def LDAPError.message : LDAPError → String
  | .inappropriateAuthentication m => m
  | .invalidCredentials m => m
  | .insufficientAccessRights m => m
  | .operations m => m
  | .other m => m

/-- Whether the error is one of the three bind-failure classes singled
out by `handleError` (`InappropriateAuthenticationError`,
`InvalidCredentialsError`, `InsufficientAccessRightsError`). -/
def LDAPError.isBindFailure : LDAPError → Bool
  | .inappropriateAuthentication _ => true
  | .invalidCredentials _ => true
  | .insufficientAccessRights _ => true
  | _ => false

/-- The fixed exception taxonomy of `src/exceptions` as used by the
driver: the constructor is the error kind. -/
inductive Exc where
  | invalidCredentials
  | invalidConfig (provider : String)
  | serviceUnavailable (service : String) (message : String)
  | unexpectedResponse (msg : String)
  | invalidPayload (msg : String)
deriving DecidableEq, Repr

/-- `handleError` from the driver: the three bind-failure classes become
`InvalidCredentialsException`; every other error becomes
`ServiceUnavailableException('Service returned unexpected error',
\x7b service: 'ldap', message: e.message \x7d)`. -/
def handleError (e : LDAPError) : Exc :=
  match e with
  | .inappropriateAuthentication _ => .invalidCredentials
  | .invalidCredentials _ => .invalidCredentials
  | .insufficientAccessRights _ => .invalidCredentials
  | e => .serviceUnavailable "ldap" e.message

/-- `UserInfo` as produced by `fetchUserInfo`: display fields may be
absent; `userAccountControl` is the result of JS `Number(...)`, where
`none` models `NaN` (absent or non-numeric attribute). -/
structure UserInfo where
  firstName : Option String
  lastName : Option String
  email : Option String
  userAccountControl : Option Nat
deriving DecidableEq, Repr

/-- `INVALID_ACCOUNT_FLAGS = 0x800012` from the driver
(0x2 ACCOUNTDISABLE, 0x10 LOCKOUT, 0x800000 PASSWORD_EXPIRED). -/
def INVALID_ACCOUNT_FLAGS : Nat := 0x800012

/-- `LDAPAuthDriver.refresh` after `validateBindClient`: given the result
of `fetchUserInfo(user.external_identifier)` (an error, no entry, or a
`UserInfo`), throw `InvalidCredentialsException` exactly on the JS
condition `userInfo?.userAccountControl && userInfo.userAccountControl &
INVALID_ACCOUNT_FLAGS`. -/
def ldapRefresh (fetch : Except Exc (Option UserInfo)) : Except Exc Unit :=
  match fetch with
  | .error e => .error e
  | .ok none => .ok ()
  | .ok (some u) =>
    match u.userAccountControl with
    | none => .ok ()
    | some n =>
      if n ≠ 0 ∧ n &&& INVALID_ACCOUNT_FLAGS ≠ 0 then .error .invalidCredentials
      else .ok ()

/-- The event that settles the per-verification connection's promise in
`LDAPAuthDriver.verify`: either the client-level `error` event fires
(transport failure surfaced by `client.on('error', ...)`), or the bind
callback runs with an error, or the bind callback runs successfully. -/
inductive VerifyEvent where
  | clientError (e : LDAPError)
  | bindError (e : LDAPError)
  | bindSuccess
deriving DecidableEq, Repr

/-- Observable outcome of one `LDAPAuthDriver.verify` call: how the
promise settles, whether a per-verification `ldap.createClient` connection
was created, and whether `client.destroy()` was called on it. -/
structure VerifyResult where
  result : Except Exc Unit
  connectionCreated : Bool
  connectionDestroyed : Bool
deriving Repr

/-- `LDAPAuthDriver.verify`: throw `InvalidCredentialsException` when
`!user.external_identifier || !password` before creating any client;
otherwise create a non-reconnecting client and bind.  `client.destroy()`
appears only inside the bind callback, so only the `bindError` and
`bindSuccess` events destroy the connection; the client-level `error`
event rejects with `handleError(err)` without destroying it. -/
def ldapVerify (externalIdentifier : Option String) (password : Option String)
    (ev : VerifyEvent) : VerifyResult :=
  if ¬ (jsTruthyStr externalIdentifier ∧ jsTruthyStr password) then
    ⟨.error .invalidCredentials, false, false⟩
  else
    match ev with
    | .clientError e => ⟨.error (handleError e), true, false⟩
    | .bindError e => ⟨.error (handleError e), true, true⟩
    | .bindSuccess => ⟨.ok (), true, true⟩

/-- A row of the `directus_roles` table as returned by the role query:
`id` and `name`. The list order of a `List RoleRow` models the (undefined)
ordering in which the database returns the rows of the un-`ORDER BY`ed
query. -/
structure RoleRow where
  id : String
  name : String
deriving DecidableEq, Repr

/-- Lowercasing as used on both sides of the role match (JS
`toLowerCase()` on the group names, SQL `LOWER` on the role names),
character by character. -/
def toLowerCase (s : String) : String :=
  ⟨s.data.map Char.toLower⟩

/-- The role query of `getUserID`: `select id from directus_roles where
LOWER(name) IN (<groups lowercased>) .first()` — the first row, in the
query's row order, whose lowercased name is among the lowercased group
names; run only when the group list is non-empty. -/
def resolveRole (roles : List RoleRow) (groups : List String) : Option RoleRow :=
  if groups.isEmpty then none
  else
    (roles.filter
      (fun r => (groups.map toLowerCase).contains (toLowerCase r.name))).head?

/-- The policy as the spec words it for comparison: the first group, in
group-list order, whose name case-insensitively matches a known role name
determines the role. -/
def resolveRoleFirstGroup (roles : List RoleRow) (groups : List String) :
    Option RoleRow :=
  groups.findSome?
    (fun g => roles.find? (fun r => toLowerCase r.name = toLowerCase g))

/-- A SQL value written by the driver: a string or `NULL`. -/
inductive FieldValue where
  | str (s : String)
  | null
deriving DecidableEq, Repr

/-- `userRole?.id ?? null`. -/
def roleField : Option RoleRow → FieldValue
  | none => .null
  | some r => .str r.id

/-- A write against the users service: `updateOne(id, payload)` or
`createOne(payload)`, with the payload as an explicit field list. -/
inductive DbOp where
  | updateOne (id : String) (payload : List (String × FieldValue))
  | createOne (payload : List (String × FieldValue))
deriving DecidableEq, Repr

/-- `Option String` rendered the way the driver passes it to `createOne`
(`undefined` fields modelled as `NULL`). -/
def optField : Option String → FieldValue
  | none => .null
  | some s => .str s

/-- The results of the driver's directory interactions during
`getUserID`, each independently failable: `validateBindClient`,
`fetchUserDn`, `fetchUserGroups`, `fetchUserInfo`. -/
structure DirResults where
  bind : Except Exc Unit
  userDn : Except Exc (Option String)
  groups : Except Exc (List String)
  userInfo : Except Exc (Option UserInfo)

/-- `LDAPAuthDriver.getUserID`, with the directory answers (`dir`), the
existing link lookup `fetchUserId(userDn)` (`existingId`), the role table
rows the role query ranges over (`roles`), and the id `fetchUserId`
returns after `createOne` (`createdId`) as inputs. Returns the resolved
internal user id together with the list of users-service writes
performed. -/
def getUserID (identifier : Option String) (dir : DirResults)
    (existingId : Option String) (roles : List RoleRow)
    (provider : String) (createdId : String) :
    Except Exc (String × List DbOp) :=
  if ¬ jsTruthyStr identifier then .error .invalidCredentials
  else match dir.bind with
  | .error e => .error e
  | .ok () =>
    match dir.userDn with
    | .error e => .error e
    | .ok none => .error .invalidCredentials
    | .ok (some dn) =>
      match dir.groups with
      | .error e => .error e
      | .ok userGroups =>
        let userRole := resolveRole roles userGroups
        match existingId with
        | some uid => .ok (uid, [.updateOne uid [("role", roleField userRole)]])
        | none =>
          match dir.userInfo with
          | .error e => .error e
          | .ok none => .error .invalidCredentials
          | .ok (some info) =>
            .ok (createdId,
              [.createOne [("provider", .str provider),
                           ("first_name", optField info.firstName),
                           ("last_name", optField info.lastName),
                           ("email", optField info.email),
                           ("external_identifier", .str dn),
                           ("role", roleField userRole)]])

/-- A directory attribute value as `ldapjs` hands it to `searchEntry`
callbacks: a single string when the attribute has one value, an array of
strings when it has several (`typeof x === 'object'` distinguishes
them). -/
inductive AttrValue where
  | scalar (s : String)
  | values (l : List String)
deriving DecidableEq, Repr

/-- The scalar-or-list normalization the driver applies to display
fields: `typeof x === 'object' ? x[0] : x`, with `none` for an absent
attribute (and for `x[0]` of an empty array). -/
def firstValue : Option AttrValue → Option String
  | none => none
  | some (.scalar s) => some s
  | some (.values l) => l.head?

/-- JS `Number(...)` on a possibly-absent string, restricted to the
naturals the account-control attribute ranges over: absent or
non-numeric gives `NaN` (`none`); the empty string gives `0`. -/
def jsNumber : Option String → Option Nat
  | none => none
  | some s => if s = "" then some 0 else s.toNat?

/-- The raw entry `fetchUserInfo` reads: the four requested attributes,
each possibly absent, scalar or list. -/
structure RawEntry where
  givenName : Option AttrValue
  sn : Option AttrValue
  mail : Option AttrValue
  userAccountControl : Option AttrValue
deriving Repr

/-- The `searchEntry` callback of `fetchUserInfo`: each display field is
normalized with `firstValue`; `userAccountControl` additionally goes
through `Number(...)`. -/
def parseUserInfo (e : RawEntry) : UserInfo :=
  { firstName := firstValue e.givenName
    lastName := firstValue e.sn
    email := firstValue e.mail
    userAccountControl := jsNumber (firstValue e.userAccountControl) }

/-- The group names one entry's `cn` attribute contributes in
`fetchUserGroups`: every element of a list value, a nonempty scalar as a
singleton (`else if (object.cn)` skips falsy scalars), nothing when
absent. -/
def entryGroupNames : Option AttrValue → List String
  | some (.values l) => l
  | some (.scalar s) => if s = "" then [] else [s]
  | none => []

/-- The accumulation loop of `fetchUserGroups` over the `cn` attributes of
all matching entries, in callback order, starting from `userGroups = []`. -/
def collectGroups (entries : List (Option AttrValue)) : List String :=
  entries.foldl (fun acc cn =>
    match cn with
    | some (.values l) => acc ++ l
    | some (.scalar s) => if s = "" then acc else acc ++ [s]
    | none => acc) []

/-- The transport mode of the login route, validated by the Joi schema to
be `cookie` or `json` when present. -/
inductive Mode where
  | json
  | cookie
deriving DecidableEq, Repr

/-- The environment variables the router's cookie branch reads.
`refreshTokenTTLms` holds `ms(env.REFRESH_TOKEN_TTL)`, the TTL already
converted to milliseconds (the conversion itself is the external `ms`
library). `none` models an unset variable. -/
structure RouterEnv where
  refreshTokenCookieName : String
  refreshTokenCookieDomain : Option String
  refreshTokenTTLms : Nat
  refreshTokenCookieSecure : Option Bool
  refreshTokenCookieSameSite : Option String
deriving Repr

/-- An HTTP cookie as set by `res.cookie` in the router. -/
structure SetCookie where
  name : String
  value : String
  httpOnly : Bool
  domain : Option String
  maxAge : Nat
  secure : Bool
  sameSite : String
deriving DecidableEq, Repr

/-- The response body payload of a successful login:
`\x7b data: \x7b access_token, expires, refresh_token? \x7d \x7d`. -/
structure LoginBody where
  access_token : String
  expires : Nat
  refresh_token : Option String
deriving DecidableEq, Repr

/-- JS `x || 'strict'` on the SameSite environment value: `undefined` and
the empty string fall back to `"strict"`. -/
def sameSiteOrStrict : Option String → String
  | none => "strict"
  | some s => if s = "" then "strict" else s

/-- The response-shaping tail of `createLDAPAuthRouter`'s login handler,
after `authenticationService.login` returned `accessToken`,
`refreshToken` and `expires`: `mode = req.body.mode || 'json'`; in json
mode the refresh token is added to the body; in cookie mode a
`res.cookie` call sets it with `httpOnly: true`, the configured domain,
`maxAge = ms(REFRESH_TOKEN_TTL)`, `secure = REFRESH_TOKEN_COOKIE_SECURE
?? false` and `sameSite = REFRESH_TOKEN_COOKIE_SAME_SITE || 'strict'`. -/
def loginResponse (modeParam : Option Mode) (env : RouterEnv)
    (accessToken refreshToken : String) (expires : Nat) :
    LoginBody × Option SetCookie :=
  let mode := modeParam.getD .json
  match mode with
  | .json =>
    ({ access_token := accessToken, expires := expires,
       refresh_token := some refreshToken }, none)
  | .cookie =>
    ({ access_token := accessToken, expires := expires,
       refresh_token := none },
     some
       { name := env.refreshTokenCookieName
         value := refreshToken
         httpOnly := true
         domain := env.refreshTokenCookieDomain
         maxAge := env.refreshTokenTTLms
         secure := env.refreshTokenCookieSecure.getD false
         sameSite := sameSiteOrStrict env.refreshTokenCookieSameSite })

/-- A token triple as returned by the `/auth/login` and `/auth/refresh`
endpoints. -/
structure TokenResponse where
  access_token : String
  refresh_token : String
  expires : Nat
deriving DecidableEq, Repr

/-- Modelled from the spec: the SDK client's per-session auth state. The
SDK's `Auth` implementation is not among the sources (only its tests
are); per the spec, the stored token pair and expiry plus a single
scheduled-refresh timer, `refreshTimerAt` being the absolute time the
scheduled refresh request fires (`none` when auto-refresh is off). -/
structure SdkAuthState where
  authToken : Option String
  authRefreshToken : Option String
  authExpires : Option Nat
  refreshTimerAt : Option Nat
deriving DecidableEq, Repr

/-- Modelled from the spec: storing a login (or refresh) response at
absolute time `now` with `autoRefresh` and lead time
`msRefreshBeforeExpires` replaces the stored token pair and expiry and
schedules the single refresh timer at expiry minus the lead time
(time `now + expires − lead`). -/
def sdkStore (now : Nat) (r : TokenResponse) (autoRefresh : Bool)
    (msRefreshBeforeExpires : Nat) : SdkAuthState :=
  { authToken := some r.access_token
    authRefreshToken := some r.refresh_token
    authExpires := some r.expires
    refreshTimerAt :=
      if autoRefresh then some (now + r.expires - msRefreshBeforeExpires) else none }

/-- Modelled from the spec: the body of the scheduled refresh request
carries the currently stored refresh token. -/
def sdkRefreshRequestBody (s : SdkAuthState) : Option String :=
  s.authRefreshToken

/-- Modelled from the spec: completion of the scheduled refresh at time
`now` replaces the stored pair with the new one and re-schedules, exactly
like a login. -/
def sdkApplyRefresh (_s : SdkAuthState) (now : Nat) (r : TokenResponse)
    (autoRefresh : Bool) (msRefreshBeforeExpires : Nat) : SdkAuthState :=
  sdkStore now r autoRefresh msRefreshBeforeExpires

/-- Claim C1: on session refresh the driver rejects with
`InvalidCredentials` exactly when the refetched account-control value has
a nonzero intersection with `INVALID_ACCOUNT_FLAGS`, and that mask is the
fixed bitwise OR of 0x2 (disable), 0x10 (lockout) and 0x800000
(password expired); the only other outcome on a fetched record is
success. -/
theorem refresh_rejects_iff_invalid_account_flags (u : UserInfo) :
    (ldapRefresh (.ok (some u)) = .error .invalidCredentials ↔
      u.userAccountControl.getD 0 &&& INVALID_ACCOUNT_FLAGS ≠ 0) ∧
    INVALID_ACCOUNT_FLAGS = 0x2 ||| 0x10 ||| 0x800000 ∧
    (ldapRefresh (.ok (some u)) = .error .invalidCredentials ∨
      ldapRefresh (.ok (some u)) = .ok ()) := by
  refine ⟨?_, by decide, ?_⟩ <;>
    rcases h : u.userAccountControl with _ | n
  · simp [ldapRefresh, h]
  · by_cases hm : n &&& INVALID_ACCOUNT_FLAGS = 0
    · simp [ldapRefresh, h, hm]
    · have hn : n ≠ 0 := by
        intro h0
        exact hm (by simp [h0, Nat.zero_and])
      simp [ldapRefresh, h, hm, hn]
  · simp [ldapRefresh, h]
  · by_cases hm : n &&& INVALID_ACCOUNT_FLAGS = 0
    · simp [ldapRefresh, h, hm]
    · have hn : n ≠ 0 := by
        intro h0
        exact hm (by simp [h0, Nat.zero_and])
      simp [ldapRefresh, h, hm, hn]

/-- Claim C9: `refresh` resolves successfully when the directory search
finds no entry (`fetchUserInfo` resolves `undefined`) and when the
fetched account-control value is `0` or absent (`NaN`). -/
theorem refresh_allows_missing_or_zero_account_control :
    ldapRefresh (.ok none) = .ok () ∧
    ∀ u : UserInfo,
      u.userAccountControl = some 0 ∨ u.userAccountControl = none →
        ldapRefresh (.ok (some u)) = .ok () := by
  refine ⟨rfl, fun u h => ?_⟩
  rcases h with h | h <;> simp [ldapRefresh, h]

/-- Witness for C9 at a concrete record with account-control `0`. -/
theorem refresh_allows_missing_or_zero_account_control_witness :
    ldapRefresh (.ok (some ⟨none, none, none, some 0⟩)) = .ok () :=
  refresh_allows_missing_or_zero_account_control.2
    ⟨none, none, none, some 0⟩ (Or.inl rfl)

/-- Claim C2: `handleError` sends each of the three bind-failure classes
to `InvalidCredentials`, sends every other error to `ServiceUnavailable`
carrying the service name `"ldap"` and the underlying message, always
lands in the fixed exception taxonomy, and the two outcomes differ in
kind. -/
theorem handleError_classifies_bind_and_transport (e : LDAPError) :
    (e.isBindFailure = true → handleError e = .invalidCredentials) ∧
    (e.isBindFailure = false →
      handleError e = .serviceUnavailable "ldap" e.message) ∧
    (handleError e = .invalidCredentials ∨
      handleError e = .serviceUnavailable "ldap" e.message) ∧
    Exc.invalidCredentials ≠ .serviceUnavailable "ldap" e.message := by
  cases e <;>
    simp [handleError, LDAPError.isBindFailure, LDAPError.message]

/-- Witness for C2 at a concrete transport error. -/
theorem handleError_classifies_bind_and_transport_witness :
    handleError (.other "connect ECONNREFUSED") =
      .serviceUnavailable "ldap" "connect ECONNREFUSED" :=
  (handleError_classifies_bind_and_transport
    (.other "connect ECONNREFUSED")).2.1 rfl

/-- Claim C10: `verify` throws `InvalidCredentials` when the user has no
external identifier or the password is absent or empty, before any
per-verification connection is created (so an empty password never
reaches the directory as a bind). -/
theorem verify_rejects_before_connection
    (extId pw : Option String) (ev : VerifyEvent)
    (h : extId = none ∨ pw = none ∨ pw = some "") :
    ldapVerify extId pw ev = ⟨.error .invalidCredentials, false, false⟩ := by
  rcases h with h | h | h <;> simp [ldapVerify, h, jsTruthyStr]

/-- Witness for C10: the empty-string password is rejected with no
connection created. -/
theorem verify_rejects_before_connection_witness :
    ldapVerify (some "cn=jdoe,dc=example,dc=com") (some "") .bindSuccess =
      ⟨.error .invalidCredentials, false, false⟩ :=
  verify_rejects_before_connection _ _ _ (Or.inr (Or.inr rfl))

/-- Counterexample to claim C3: a verification that settles through the
client-level `error` event (a transport failure) creates the
per-verification connection but never destroys it — the connection is not
released on every outcome. -/
theorem verify_client_error_skips_destroy_counterexample :
    (ldapVerify (some "cn=jdoe,dc=example,dc=com") (some "pw")
        (.clientError (.other "connect ECONNREFUSED"))).connectionCreated
      = true ∧
    (ldapVerify (some "cn=jdoe,dc=example,dc=com") (some "pw")
        (.clientError (.other "connect ECONNREFUSED"))).connectionDestroyed
      = false := by
  constructor <;> rfl

/-- Claim C3 as amended: the scoped connection is destroyed exactly when
the bind callback runs — on bind success and on bind failure — while a
transport error surfaced through the client's `error` event rejects the
verification without destroying the connection. -/
theorem verify_destroys_connection_iff_bind_callback_runs
    (extId pw : Option String)
    (hid : jsTruthyStr extId = true) (hpw : jsTruthyStr pw = true) :
    (∀ e, ldapVerify extId pw (.bindError e) =
      ⟨.error (handleError e), true, true⟩) ∧
    ldapVerify extId pw .bindSuccess = ⟨.ok (), true, true⟩ ∧
    ∀ e, ldapVerify extId pw (.clientError e) =
      ⟨.error (handleError e), true, false⟩ := by
  refine ⟨fun e => ?_, ?_, fun e => ?_⟩ <;> simp [ldapVerify, hid, hpw]

/-- Witness for the amended C3 at concrete credentials and a concrete
bind failure. -/
theorem verify_destroys_connection_iff_bind_callback_runs_witness :
    ldapVerify (some "cn=jdoe,dc=example,dc=com") (some "pw")
        (.bindError (.invalidCredentials "InvalidCredentialsError")) =
      ⟨.error .invalidCredentials, true, true⟩ :=
  (verify_destroys_connection_iff_bind_callback_runs
    (some "cn=jdoe,dc=example,dc=com") (some "pw") rfl rfl).1
    (.invalidCredentials "InvalidCredentialsError")

/-- Claim C5: when the distinguished name is already linked to an
internal user, `getUserID` performs exactly one write — an `updateOne` of
that user whose payload holds only the `role` field (the resolved role id
or `NULL`) — and returns the existing id; in particular no `createOne`
happens. -/
theorem getUserID_existing_updates_only_role
    (identifier : Option String) (dir : DirResults) (dn : String)
    (gs : List String) (uid : String) (roles : List RoleRow)
    (provider createdId : String)
    (hident : jsTruthyStr identifier = true)
    (hbind : dir.bind = .ok ()) (hdn : dir.userDn = .ok (some dn))
    (hgs : dir.groups = .ok gs) :
    getUserID identifier dir (some uid) roles provider createdId =
      .ok (uid,
        [.updateOne uid [("role", roleField (resolveRole roles gs))]]) := by
  simp [getUserID, hident, hbind, hdn, hgs]

/-- Witness for C5: a concrete already-linked identity with one matching
group yields only the role update and the existing id. -/
theorem getUserID_existing_updates_only_role_witness :
    getUserID (some "jdoe")
        ⟨.ok (), .ok (some "cn=jdoe,dc=example,dc=com"),
          .ok ["Admins"], .ok none⟩
        (some "user-1") [⟨"role-1", "admins"⟩] "ldap" "unused" =
      .ok ("user-1", [.updateOne "user-1" [("role", .str "role-1")]]) := by
  rw [getUserID_existing_updates_only_role (some "jdoe")
    ⟨.ok (), .ok (some "cn=jdoe,dc=example,dc=com"), .ok ["Admins"], .ok none⟩
    "cn=jdoe,dc=example,dc=com" ["Admins"] "user-1" [⟨"role-1", "admins"⟩]
    "ldap" "unused" rfl rfl rfl rfl]
  have hrole : resolveRole [⟨"role-1", "admins"⟩] ["Admins"] =
      some ⟨"role-1", "admins"⟩ := by decide
  rw [hrole]
  rfl

/-- Counterexample to claim C6: with role rows `[⟨b-id, "B"⟩, ⟨a-id, "A"⟩]`
and group list `["a", "b"]`, the first matching group is `"a"` (role
`a-id`), but the code resolves the first matching row of the role query,
`b-id` — the first group does not win. -/
theorem role_resolution_first_group_counterexample :
    resolveRole [⟨"role-b", "B"⟩, ⟨"role-a", "A"⟩] ["a", "b"] =
      some ⟨"role-b", "B"⟩ ∧
    resolveRoleFirstGroup [⟨"role-b", "B"⟩, ⟨"role-a", "A"⟩] ["a", "b"] =
      some ⟨"role-a", "A"⟩ ∧
    resolveRole [⟨"role-b", "B"⟩, ⟨"role-a", "A"⟩] ["a", "b"] ≠
      resolveRoleFirstGroup [⟨"role-b", "B"⟩, ⟨"role-a", "A"⟩] ["a", "b"] := by
  refine ⟨by decide, by decide, by decide⟩

/-- Claim C6 as amended: role matching is case-insensitive — the result
depends only on the lowercased group names — and when several roles
match, the winner is the first matching row in the role query's row
order, not the role of the first matching group. -/
theorem resolveRole_first_query_row_case_insensitive
    (roles : List RoleRow) (groups groups' : List String)
    (h : groups ≠ []) (h' : groups' ≠ [])
    (hlow : groups.map toLowerCase = groups'.map toLowerCase) :
    resolveRole roles groups =
      roles.find?
        (fun r => (groups.map toLowerCase).contains (toLowerCase r.name)) ∧
    resolveRole roles groups = resolveRole roles groups' := by
  constructor
  · simp [resolveRole, h, List.filter_head?]
  · simp [resolveRole, h, h', hlow]

/-- Witness for the amended C6: `["Admins"]` and `["aDMINS"]` resolve
identically, to the first matching query row. -/
theorem resolveRole_first_query_row_case_insensitive_witness :
    resolveRole [⟨"role-1", "admins"⟩] ["Admins"] =
      [⟨("role-1" : String), ("admins" : String)⟩].find?
        (fun r => (["Admins"].map toLowerCase).contains (toLowerCase r.name)) ∧
    resolveRole [⟨"role-1", "admins"⟩] ["Admins"] =
      resolveRole [⟨"role-1", "admins"⟩] ["aDMINS"] :=
  resolveRole_first_query_row_case_insensitive
    [⟨"role-1", "admins"⟩] ["Admins"] ["aDMINS"]
    (by simp) (by simp) (by decide)

/-- The `fetchUserGroups` accumulation loop, started from any
accumulator, appends exactly the concatenation of each entry's
contributed names. -/
theorem collectGroups_foldl (entries : List (Option AttrValue))
    (acc : List String) :
    entries.foldl (fun acc cn =>
      match cn with
      | some (.values l) => acc ++ l
      | some (.scalar s) => if s = "" then acc else acc ++ [s]
      | none => acc) acc
      = acc ++ (entries.map entryGroupNames).flatten := by
  induction entries generalizing acc with
  | nil => simp
  | cons e es ih =>
    rcases e with _ | v
    · simp [entryGroupNames, ih]
    · rcases v with s | l
      · by_cases hs : s = "" <;>
          simp [entryGroupNames, hs, ih, List.append_assoc]
      · simp [entryGroupNames, ih, List.append_assoc]

/-- Claim C7: display fields (first name, last name, email) and the
account-control value are normalized to the first element of a
list-valued attribute and taken as-is when scalar, while group names are
accumulated in full across all entries, a list value contributing every
element. -/
theorem attribute_normalization_and_group_accumulation
    (s fst : String) (rest : List String) (e : RawEntry)
    (entries : List (Option AttrValue)) :
    firstValue (some (.scalar s)) = some s ∧
    firstValue (some (.values (fst :: rest))) = some fst ∧
    (parseUserInfo e).firstName = firstValue e.givenName ∧
    (parseUserInfo e).lastName = firstValue e.sn ∧
    (parseUserInfo e).email = firstValue e.mail ∧
    (parseUserInfo e).userAccountControl
      = jsNumber (firstValue e.userAccountControl) ∧
    collectGroups entries = (entries.map entryGroupNames).flatten ∧
    entryGroupNames (some (.values (fst :: rest))) = fst :: rest := by
  refine ⟨rfl, rfl, rfl, rfl, rfl, rfl, ?_, rfl⟩
  simpa [collectGroups] using collectGroups_foldl entries []

/-- Claim C4: a successful login through the router returns both tokens
in the body in json mode (json also being the default when the mode flag
is absent) and sets no cookie; in cookie mode the body carries only the
access token while the refresh token goes solely into a cookie that is
HttpOnly, has the configured domain and Secure flag (default off),
max-age equal to the configured refresh-token TTL, and SameSite
defaulting to `"strict"`. -/
theorem login_response_modes (env : RouterEnv) (tok rt : String) (ex : Nat) :
    loginResponse none env tok rt ex = loginResponse (some .json) env tok rt ex ∧
    ((loginResponse (some .json) env tok rt ex).1.access_token = tok ∧
     (loginResponse (some .json) env tok rt ex).1.refresh_token = some rt ∧
     (loginResponse (some .json) env tok rt ex).2 = none) ∧
    ((loginResponse (some .cookie) env tok rt ex).1.access_token = tok ∧
     (loginResponse (some .cookie) env tok rt ex).1.refresh_token = none ∧
     (loginResponse (some .cookie) env tok rt ex).2 =
       some { name := env.refreshTokenCookieName
              value := rt
              httpOnly := true
              domain := env.refreshTokenCookieDomain
              maxAge := env.refreshTokenTTLms
              secure := env.refreshTokenCookieSecure.getD false
              sameSite := sameSiteOrStrict env.refreshTokenCookieSameSite }) ∧
    sameSiteOrStrict none = "strict" :=
  ⟨rfl, ⟨rfl, rfl, rfl⟩, ⟨rfl, rfl, rfl⟩, rfl⟩

/-- Claim C8: with auto-refresh on, storing a login response at time 0
schedules the single refresh at expiry minus the lead time — strictly
before the old expiry when the lead is positive — the scheduled request
carries the stored refresh token, and applying the refresh reply replaces
the stored access token. Modelled from the spec (the SDK client is
present only through its tests). -/
theorem auto_refresh_schedule (r r2 : TokenResponse) (lead : Nat)
    (h1 : 0 < lead) (h2 : lead ≤ r.expires) :
    (sdkStore 0 r true lead).refreshTimerAt = some (r.expires - lead) ∧
    r.expires - lead < r.expires ∧
    sdkRefreshRequestBody (sdkStore 0 r true lead) = some r.refresh_token ∧
    (sdkApplyRefresh (sdkStore 0 r true lead) (r.expires - lead) r2 true
        lead).authToken = some r2.access_token := by
  refine ⟨by simp [sdkStore], ?_, rfl, rfl⟩
  exact Nat.sub_lt (lt_of_lt_of_le h1 h2) h1

/-- Witness for C8: the spec's scenario — login returns AT1/RT1 with
expiry 5000 and lead 2500, the refresh fires at t = 2500 carrying RT1,
and the reply AT2/RT2/5000 replaces the stored token with AT2. -/
theorem auto_refresh_schedule_witness :
    (sdkStore 0 ⟨"AT1", "RT1", 5000⟩ true 2500).refreshTimerAt
      = some (5000 - 2500) ∧
    5000 - 2500 < 5000 ∧
    sdkRefreshRequestBody (sdkStore 0 ⟨"AT1", "RT1", 5000⟩ true 2500)
      = some "RT1" ∧
    (sdkApplyRefresh (sdkStore 0 ⟨"AT1", "RT1", 5000⟩ true 2500)
        (5000 - 2500) ⟨"AT2", "RT2", 5000⟩ true 2500).authToken
      = some "AT2" :=
  auto_refresh_schedule ⟨"AT1", "RT1", 5000⟩ ⟨"AT2", "RT2", 5000⟩ 2500
    (by decide) (by decide)

end ArquiAgua
